import Mathlib

/-!
Shallow embedding of `src/app.py` (CyberCode AI chat assistant).

Conventions of the embedding:
* Python strings are Lean `String`s (lists of unicode chars); `str.lower()` /
  `str.upper()` become per-char `Char.toLower` / `Char.toUpper` maps, and
  `str.strip()` becomes `stripStr` (drop whitespace at both ends).
* Python's substring test `needle in hay` becomes `containsSub` / `containsStr`.
* Timestamps (`datetime.now()`, `ultimo_uso`) are modelled as integer seconds;
  `(a - b).total_seconds() > 3600` becomes `3600 < a - b` over `ℤ`.
* Numbers mixing `int` and float true division (`len(msg)/10 + 2`,
  `efectividad_total / veces_usada`) are modelled in `ℚ`.
* Python dicts (insertion ordered) become association lists; updating an
  existing key keeps its position, a new key is appended (`updAssoc`),
  matching CPython dict semantics.
* The Groq completion gateway is an oracle `gw : String → List Msg → Option
  String` (model id and messages in, completion text or failure out); the
  fallback loop over the fixed model list is `tryModels`.
* File I/O, locking and logging of `SistemaAprendizaje` are not modelled: the
  in-memory mapping is threaded explicitly.
-/

/-- `leadsWith n h`: the char list `n` is a prefix of `h`. -/
def leadsWith : List Char → List Char → Bool
  | [], _ => true
  | _ :: _, [] => false
  | a :: as, b :: bs => a == b && leadsWith as bs

/-- `containsSub n h`: Python's substring test `n in h` on char lists. -/
def containsSub (needle : List Char) : List Char → Bool
  | [] => needle.isEmpty
  | c :: rest => leadsWith needle (c :: rest) || containsSub needle rest

/-- Substring test on `String`s (Python `needle in hay`). -/
def containsStr (needle hay : String) : Bool :=
  containsSub needle.data hay.data

/-- Python `str.lower()`. -/
def lowerStr (s : String) : String := String.mk (s.data.map Char.toLower)

/-- Python `str.upper()`. -/
def upperStr (s : String) : String := String.mk (s.data.map Char.toUpper)

/-- Python `str.strip()`: drop whitespace from both ends. -/
def stripStr (s : String) : String :=
  String.mk (((s.data.dropWhile Char.isWhitespace).reverse.dropWhile
    Char.isWhitespace).reverse)

/-- The fixed language → keywords table of `detectar_lenguaje`
(`lenguajes_keywords`, app.py lines 150-160), in declared order. -/
def lenguajesKeywords : List (String × List String) := [
  ("Python", ["python", "def ", "import ", "print(", "numpy", "pandas",
    "__main__", "if __name__"]),
  ("JavaScript", ["javascript", "js", "function()", "console.log", "react",
    "vue", "angular", "document.", "window."]),
  ("Java", ["java", "public class", "System.out", "spring", "void main",
    "String[]", "import java"]),
  ("HTML/CSS", ["html", "css", "<div>", "class=", "style=", "<html", "<body",
    "color:", "font-size"]),
  ("React", ["react", "useState", "component", "jsx", "useEffect", "props",
    "setState"]),
  ("Node.js", ["node", "express", "require(", "npm", "module.exports",
    "app.get", "app.post"]),
  ("SQL", ["sql", "select", "insert", "update", "delete", "where", "from",
    "join", "table"]),
  ("C++", ["c++", "#include", "cout <<", "cin >>", "std::", "vector<",
    "class "]),
  ("TypeScript", ["typescript", "ts", "interface", "type ", "const:",
    "function("])]

/-- Inner loop of `detectar_lenguaje`: does any keyword of the table entry
`p` occur (case-insensitively) in the message? -/
def langMatches (user_message : String) (p : String × List String) : Bool :=
  p.2.any (fun kw => containsStr (lowerStr kw) (lowerStr user_message))

/-- `CodeChatAssistant.detectar_lenguaje` (app.py lines 149-166): first table
entry with a matching keyword wins, otherwise `"General"`. -/
def detectarLenguaje (user_message : String) : String :=
  match lenguajesKeywords.find? (langMatches user_message) with
  | some p => p.1
  | none => "General"

/-- Python regex `\w` (ASCII part, which is all the repo's inputs use). -/
def wordChar (c : Char) : Bool := c.isAlphanum || c = '_'

/-- Lazy part `(.*?)```` ``` ` of the fenced-block regex: content up to the
first closing triple backtick, `none` if no closing marker exists. -/
def splitClose : List Char → Option (List Char)
  | '`' :: '`' :: '`' :: _ => some []
  | c :: rest => (splitClose rest).map (c :: ·)
  | [] => none

/-- One anchored attempt of the fenced-block regex
`` ```(?:\w+)?\n(.*?)``` `` (DOTALL) at the start of the list. -/
def fencedAt : List Char → Option (List Char)
  | '`' :: '`' :: '`' :: rest =>
    match rest.dropWhile wordChar with
    | '\n' :: body => splitClose body
    | _ => none
  | _ => none

/-- First match of the fenced-block regex, scanning positions left to right
(`re.findall(...)[0]` of app.py line 168). -/
def findFenced (cs : List Char) : Option (List Char) :=
  cs.tails.findSome? fencedAt

/-- One anchored attempt of the inline-span regex `` `([^`]+)` ``. -/
def inlineAt : List Char → Option (List Char)
  | '`' :: rest =>
    let run := rest.takeWhile (fun c => c ≠ '`')
    if run.isEmpty then none
    else
      match rest.dropWhile (fun c => c ≠ '`') with
      | '`' :: _ => some run
      | _ => none
  | _ => none

/-- First match of the inline-span regex (app.py line 171). -/
def findInline (cs : List Char) : Option (List Char) :=
  cs.tails.findSome? inlineAt

/-- Python `user_message.split('\n')` on char lists (keeps empty pieces). -/
def splitOnNl : List Char → List (List Char)
  | [] => [[]]
  | '\n' :: rest => [] :: splitOnNl rest
  | c :: rest =>
    match splitOnNl rest with
    | l :: ls => (c :: l) :: ls
    | [] => [[c]]

/-- Python `'\n'.join(...)` on char lists. -/
def joinNl : List (List Char) → List Char
  | [] => []
  | [l] => l
  | l :: rest => l ++ '\n' :: joinNl rest

/-- The fixed code-indicator keywords of `extraer_codigo_usuario`
(app.py lines 175-176). -/
def codeKeywords : List String :=
  ["def ", "function", "class ", "import ", "var ", "let ", "const ", "if ",
   "for ", "while ", "return ", "print", "console.log"]

/-- The lines of the message containing a code-indicator keyword
(`lineas_codigo`, app.py lines 174-176), in original order. -/
def keywordLines (user_message : String) : List (List Char) :=
  (splitOnNl user_message.data).filter
    (fun l => codeKeywords.any (fun kw => containsSub kw.data l))

/-- `CodeChatAssistant.extraer_codigo_usuario` (app.py lines 167-179). -/
def extraerCodigoUsuario (user_message : String) : String :=
  match findFenced user_message.data with
  | some content => stripStr (String.mk content)
  | none =>
    match findInline user_message.data with
    | some inline => String.mk inline
    | none =>
      if keywordLines user_message = [] then user_message
      else String.mk (joinNl (keywordLines user_message))

/-- `CodeChatAssistant.analizar_codigo_estructura` (app.py lines 180-199):
substring rules producing (problemas, sugerencias), in declared order. -/
def analizarCodigoEstructura (codigo lenguaje : String) :
    List String × List String :=
  if lenguaje = "Python" then
    let rImports := containsStr "import " codigo &&
      !containsStr "import os" codigo && !containsStr "import sys" codigo
    let rIndent := containsStr "def " codigo && containsStr ":" codigo &&
      !containsStr "    " codigo && !containsStr "\t" codigo
    let rFstr := containsStr "print(" codigo && !containsStr "f\"" codigo &&
      !containsStr "format(" codigo
    ((if rIndent then ["Falta indentación en funciones"] else []),
     (if rImports then
        ["Considera agregar imports estándar como os, sys para mejor funcionalidad"]
      else []) ++
     (if rIndent then ["Usa 4 espacios para indentación en Python"] else []) ++
     (if rFstr then ["Considera usar f-strings para formateo más legible"]
      else []))
  else if lenguaje = "JavaScript" then
    let rArrow := containsStr "function(" codigo && !containsStr "=>" codigo
    let rVar := containsStr "var " codigo
    let rLog := containsStr "console.log" codigo && !containsStr "//" codigo
    ((if rVar then ["Uso de \x27var\x27 en lugar de \x27let\x27 o \x27const\x27"]
      else []),
     (if rArrow then
        ["Considera usar arrow functions para código más moderno"]
      else []) ++
     (if rVar then
        ["Usa \x27const\x27 para valores constantes y \x27let\x27 para variables que cambian"]
      else []) ++
     (if rLog then ["Agrega comentarios para explicar los logs de debug"]
      else []))
  else ([], [])

/-- The `practicas` dict of `obtener_mejores_practicas` (app.py lines 222-228). -/
def practicasTable : List (String × String) := [
  ("Python", "• Usa type hints para mejor legibilidad\n• Aplica el principio DRY (Don\x27t Repeat Yourself)\n• Usa context managers (with) para manejo de recursos\n• Sigue PEP 8 para estilo de código\n• Escribe docstrings para documentación\n• Usa virtual environments para dependencias\n• Implementa manejo de excepciones específico"),
  ("JavaScript", "• Usa const/let en lugar de var\n• Implementa async/await para operaciones asíncronas\n• Usa arrow functions para callbacks\n• Aplica destructuring para objetos/arrays\n• Usa template literals para strings\n• Sigue ESLint para consistencia\n• Implementa error handling con try/catch"),
  ("Java", "• Sigue convenciones de nombrado Java\n• Usa streams para procesamiento de datos\n• Implementa optional para valores nulos\n• Aplica principios SOLID\n• Usa Lombok para reducir boilerplate\n• Implementa logging apropiado\n• Usa constructores para inmutabilidad"),
  ("React", "• Usa functional components con hooks\n• Implementa useEffect correctamente\n• Aplica propTypes o TypeScript\n• Usa context API para estado global\n• Optimiza con React.memo y useMemo\n• Separa concerns con custom hooks\n• Implementa error boundaries")]

/-- Association-list lookup (Python `d[k]` / `k in d`). -/
def lookupAssoc {V : Type} (k : String) : List (String × V) → Option V
  | [] => none
  | (k1, v) :: rest => if k1 = k then some v else lookupAssoc k rest

/-- Association-list read-modify-write of one key (Python `d[k] = f(d.get(k))`):
an existing key keeps its position, a new key is appended, as in a CPython
dict. -/
def updAssoc {V : Type} (k : String) (f : Option V → V) :
    List (String × V) → List (String × V)
  | [] => [(k, f none)]
  | (k1, v) :: rest =>
    if k1 = k then (k1, f (some v)) :: rest else (k1, v) :: updAssoc k f rest

/-- `CodeChatAssistant.obtener_mejores_practicas` (app.py lines 222-229). -/
def obtenerMejoresPracticas (lenguaje : String) : String :=
  (lookupAssoc lenguaje practicasTable).getD
    "• Escribe código limpio y legible\n• Usa nombres descriptivos\n• Comenta cuando sea necesario\n• Prueba tu código\n• Sigue las convenciones del lenguaje"

/-- `for x in xs: respuesta += f"• {x}\n"` (app.py lines 208-209, 213-214). -/
def bulletLines (items : List String) : String :=
  items.foldl (fun acc item => acc ++ "• " ++ item ++ "\n") ""

/-- The fixed closing capabilities block (app.py line 220). -/
def closingBlock : String :=
  "**¿Necesitas más ayuda?** \nPuedo:\n• 🔍 Analizar código más complejo\n• 💡 Explicar conceptos específicos\n• ⚡ Optimizar rendimiento\n• 🐛 Debuggear errores\n• 📚 Mostrar ejemplos avanzados\n\n¡Solo pregúntame! 🚀"

/-- `CodeChatAssistant.generar_respuesta_estructurada` (app.py lines 200-221).
Note the analysis fence is closed with exactly two backticks, as in the
source f-string (line 205 ends `\n``ossep`). -/
def generarRespuestaEstructurada
    (user_message ai_response_raw lenguaje : String) : String :=
  let codigo_usuario := extraerCodigoUsuario user_message
  let ps := analizarCodigoEstructura codigo_usuario lenguaje
  let r0 := "**🤖 CYBERCODE AI - ASISTENTE " ++ upperStr lenguaje ++ "**\n\n"
  let r1 :=
    if codigo_usuario ≠ "" ∧ 10 < codigo_usuario.length then
      let ra := r0 ++ "**🔍 ANÁLISIS DEL CÓDIGO**\n\n```" ++
        lowerStr lenguaje ++ "\n" ++ codigo_usuario ++ "\n``"
      let rb :=
        if ps.1 ≠ [] then
          ra ++ "**⚠️ PROBLEMAS IDENTIFICADOS:**\n" ++ bulletLines ps.1 ++ "\n"
        else ra
      if ps.2 ≠ [] then
        rb ++ "**💡 SUGERENCIAS INMEDIATAS:**\n" ++ bulletLines ps.2 ++ "\n"
      else rb
    else r0
  let r2 := r1 ++ "**🚀 RESPUESTA ESPECIALIZADA**\n" ++ ai_response_raw ++ "\n\n"
  let mejores_practicas := obtenerMejoresPracticas lenguaje
  let r3 :=
    if mejores_practicas ≠ "" then
      r2 ++ "**📚 MEJORES PRÁCTICAS - " ++ upperStr lenguaje ++ "**\n" ++
        mejores_practicas ++ "\n\n"
    else r2
  r3 ++ closingBlock

/-- One value of `respuestas_efectivas[lenguaje][respuesta_bot]`
(app.py lines 90-94). -/
structure LearnEntry where
  efectividad_total : ℚ
  veces_usada : Nat
  ultimo_uso : ℤ
deriving DecidableEq

/-- In-memory `SistemaAprendizaje.respuestas_efectivas`:
language → response text → entry. -/
abbrev Store := List (String × List (String × LearnEntry))

/-- Lookup of one (language, response) entry of the store. -/
def lookupStore (store : Store) (lenguaje respuesta : String) :
    Option LearnEntry :=
  match lookupAssoc lenguaje store with
  | some inner => lookupAssoc respuesta inner
  | none => none

/-- The clamp `min(10, max(1, engagement))` of `evaluar_respuesta`
(app.py line 86). -/
def clampEff (engagement : ℚ) : ℚ := min 10 (max 1 engagement)

/-- `SistemaAprendizaje.evaluar_respuesta` (app.py lines 81-98), on the
in-memory mapping (the persisting `guardar_aprendizaje` call only mirrors
this state to disk). -/
def evaluarRespuesta (store : Store)
    (lenguaje respuesta_usuario respuesta_bot : String)
    (engagement : ℚ) (now : ℤ) : Store :=
  if stripStr lenguaje = "" then store
  else if stripStr respuesta_bot = "" then store
  else
    let efectividad := clampEff engagement
    updAssoc lenguaje (fun inner =>
      updAssoc respuesta_bot (fun old =>
        let base := old.getD ⟨0, 0, now⟩
        ⟨base.efectividad_total + efectividad, base.veces_usada + 1, now⟩)
        (inner.getD [])) store

/-- The sort key of `obtener_mejor_respuesta` (app.py line 103):
average effectiveness, 0 when never used. -/
def avgEff (e : LearnEntry) : ℚ :=
  if 0 < e.veces_usada then e.efectividad_total / (e.veces_usada : ℚ) else 0

/-- Stable descending insertion by `avgEff`: the inserted element skips only
strictly greater keys and lands before the first element with an equal or
smaller key. Since `sortDesc` inserts earlier list elements last, an earlier
entry ends up before every tied later entry, mirroring Python's stable
`sorted(..., reverse=True)`. -/
def insertDesc (x : String × LearnEntry) :
    List (String × LearnEntry) → List (String × LearnEntry)
  | [] => [x]
  | y :: rest =>
    if avgEff x.2 < avgEff y.2 then y :: insertDesc x rest else x :: y :: rest

/-- `sorted(entries, key=avg, reverse=True)` (app.py lines 101-105). -/
def sortDesc : List (String × LearnEntry) → List (String × LearnEntry)
  | [] => []
  | x :: rest => insertDesc x (sortDesc rest)

/-- The final loop of `obtener_mejor_respuesta` (app.py lines 106-109): first
response of the list whose `ultimo_uso` is more than an hour before `now`. -/
def firstStale : List (String × LearnEntry) → ℤ → Option String
  | [], _ => none
  | p :: rest, now =>
    if 3600 < now - p.2.ultimo_uso then some p.1 else firstStale rest now

/-- `SistemaAprendizaje.obtener_mejor_respuesta` (app.py lines 99-110). -/
def obtenerMejorRespuesta (store : Store) (lenguaje contexto : String)
    (now : ℤ) : Option String :=
  match lookupAssoc lenguaje store with
  | some entries =>
    if entries = [] then none
    else firstStale ((sortDesc entries).take 3) now
  | none => none

/-- One history entry `{"role", "content", "code_snippet"}` (app.py line 128). -/
structure Msg where
  role : String
  content : String
  code_snippet : Option String
deriving DecidableEq

/-- The serialized state of `CodeChatAssistant` (the fields of `to_dict`,
app.py lines 132-139; the per-session `SistemaAprendizaje` is not serialized
and is threaded separately as a `Store`). -/
structure Session where
  history : List Msg
  session_id : String
  contador_interacciones : Nat
  max_historial : Nat
  lenguaje_actual : Option String
deriving DecidableEq

/-- `CodeChatAssistant.__init__` (app.py lines 120-126), with the fresh
`uuid.uuid4()` supplied as a parameter. -/
def newSession (freshId : String) : Session :=
  ⟨[], freshId, 0, 20, none⟩

/-- `CodeChatAssistant.add_message` (app.py lines 127-129): append and count,
with no truncation. -/
def addMessage (s : Session) (role content : String)
    (code_snippet : Option String) : Session :=
  { s with history := s.history ++ [⟨role, content, code_snippet⟩],
           contador_interacciones := s.contador_interacciones + 1 }

/-- `CodeChatAssistant.get_conversation_context` (app.py lines 130-131):
Python `self.history[-self.max_historial:]` (the whole list when
`max_historial = 0`). -/
def getConversationContext (s : Session) : List Msg :=
  if s.max_historial = 0 then s.history
  else s.history.drop (s.history.length - s.max_historial)

/-- The plain field mapping produced by `to_dict` / consumed by `from_dict`;
a `none` field models a key absent from the record. -/
structure SessionRecord where
  history : Option (List Msg)
  session_id : Option String
  contador_interacciones : Option Nat
  max_historial : Option Nat
  lenguaje_actual : Option (Option String)
deriving DecidableEq

/-- The record with every key absent. -/
def emptyRecord : SessionRecord := ⟨none, none, none, none, none⟩

/-- `CodeChatAssistant.to_dict` (app.py lines 132-139). -/
def toDict (s : Session) : SessionRecord :=
  ⟨some s.history, some s.session_id, some s.contador_interacciones,
   some s.max_historial, some s.lenguaje_actual⟩

/-- `CodeChatAssistant.from_dict` (app.py lines 140-148): `data.get(k, default)`
for each field, the default id being a fresh `uuid.uuid4()` supplied as a
parameter. -/
def fromDict (data : SessionRecord) (freshId : String) : Session :=
  ⟨data.history.getD [], data.session_id.getD freshId,
   data.contador_interacciones.getD 0, data.max_historial.getD 20,
   data.lenguaje_actual.getD none⟩

/-- The payload shapes returned by `analyze_with_ai` and `/chat`
(`success` plus the keys present in each dict). -/
structure ChatResult where
  success : Bool
  error : Option String
  response : Option String
  session_id : Option String
  lenguaje : Option String
  history_length : Option Nat
  interacciones : Option Nat
deriving DecidableEq

/-- A `{"success": False, "error": e}` payload. -/
def errResult (e : String) : ChatResult :=
  ⟨false, some e, none, none, none, none, none⟩

/-- The `{"success": True, ...}` payload of app.py lines 264-271. -/
def okResult (response sid lenguaje : String)
    (history_length interacciones : Nat) : ChatResult :=
  ⟨true, none, some response, some sid, some lenguaje,
   some history_length, some interacciones⟩

/-- The prioritized model list `modelos` (app.py line 241). -/
def modelos : List String :=
  ["openai/gpt-oss-120b", "llama-3.3-70b-versatile", "llama-3.1-8b-instant"]

/-- The role-tagged message list sent to the gateway (app.py lines 236-240):
system prompt, rolling context, current user message. -/
def buildMessages (s : Session) (lenguaje_detectado user_message : String) :
    List Msg :=
  let system_prompt := "Eres CyberCode AI, un experto asistente de programación especializado en " ++
    (if lenguaje_detectado ≠ "General" then lenguaje_detectado
     else "múltiples lenguajes") ++ "..."
  ⟨"system", system_prompt, none⟩ ::
    ((getConversationContext s).map (fun m =>
      ⟨if m.role = "user" then "user" else "assistant", m.content, none⟩) ++
     [⟨"user", user_message, none⟩])

/-- The fallback loop over `modelos` (app.py lines 242-256): first successful
completion wins, each failure advances to the next candidate. -/
def tryModels (gw : String → List Msg → Option String) (messages : List Msg) :
    List String → Option String
  | [] => none
  | modelo :: rest =>
    match gw modelo messages with
    | some r => some r
    | none => tryModels gw messages rest

/-- The engagement heuristic `min(10, len(user_message) / 10 + 2)`
(app.py line 262). -/
def engagementOf (user_message : String) : ℚ :=
  min 10 ((user_message.length : ℚ) / 10 + 2)

/-- `CodeChatAssistant.analyze_with_ai` (app.py lines 230-274), with the Groq
client availability flag and the completion gateway as parameters, returning
(payload, session, learning store). -/
def analyzeWithAI (groqAvailable : Bool)
    (gw : String → List Msg → Option String) (now : ℤ)
    (s : Session) (store : Store) (user_message : String) :
    ChatResult × Session × Store :=
  if !groqAvailable then
    (errResult "Servicio AI no configurado. Por favor, configura GROQ_API_KEY en Render.",
     s, store)
  else
    let lenguaje_detectado := detectarLenguaje user_message
    let s1 := { s with lenguaje_actual := some lenguaje_detectado }
    let messages := buildMessages s1 lenguaje_detectado user_message
    match tryModels gw messages modelos with
    | none => (errResult "No se pudo conectar con ningún modelo AI", s1, store)
    | some ai_response_raw =>
      let ai_response_mejorada :=
        generarRespuestaEstructurada user_message ai_response_raw
          lenguaje_detectado
      let s2 := addMessage s1 "assistant" ai_response_mejorada none
      let store2 := evaluarRespuesta store lenguaje_detectado user_message
        ai_response_mejorada (engagementOf user_message) now
      (okResult ai_response_mejorada s2.session_id lenguaje_detectado
        s2.history.length s2.contador_interacciones, s2, store2)

/-- The `/chat` handler body (app.py lines 286-300): strip the message,
reject empty input, rehydrate or create the session, append the user message,
run the analysis, persist the session. -/
def chatEndpoint (groqAvailable : Bool)
    (gw : String → List Msg → Option String) (now : ℤ)
    (sess : Option Session) (fresh : Session) (store : Store)
    (rawMessage : String) : ChatResult × Option Session × Store :=
  let user_message := stripStr rawMessage
  if user_message = "" then
    (errResult "El mensaje no puede estar vacío", sess, store)
  else
    let s0 := sess.getD fresh
    let s1 := addMessage s0 "user" user_message none
    let out := analyzeWithAI groqAvailable gw now s1 store user_message
    (out.1, some out.2.1, out.2.2)

/-- `n` successive `add_message('user', "m")` calls on a session. -/
def appendUserN : Session → Nat → Session
  | s, 0 => s
  | s, n + 1 => appendUserN (addMessage s "user" "m" none) n

/-- Number of history entries with the given role. -/
def countRole (role : String) (h : List Msg) : Nat :=
  h.countP (fun m => m.role == role)

/-- Mapping chars preserves the prefix test. -/
theorem leadsWith_map (f : Char → Char) (n : List Char) :
    ∀ h : List Char, leadsWith n h = true →
      leadsWith (n.map f) (h.map f) = true := by
  induction n with
  | nil => intro h _; rfl
  | cons a as ih =>
    intro h hyp
    cases h with
    | nil => simp [leadsWith] at hyp
    | cons b bs =>
      simp only [leadsWith, Bool.and_eq_true, beq_iff_eq] at hyp
      obtain ⟨rfl, h2⟩ := hyp
      simp only [List.map_cons, leadsWith, Bool.and_eq_true]
      exact ⟨beq_self_eq_true _, ih bs h2⟩

/-- Mapping chars preserves the substring test. -/
theorem containsSub_map (f : Char → Char) (n : List Char) :
    ∀ h : List Char, containsSub n h = true →
      containsSub (n.map f) (h.map f) = true := by
  intro h
  induction h with
  | nil =>
    intro hyp
    cases n with
    | nil => rfl
    | cons a as => simp [containsSub, List.isEmpty] at hyp
  | cons c rest ih =>
    intro hyp
    simp only [containsSub, Bool.or_eq_true] at hyp
    simp only [List.map_cons, containsSub, Bool.or_eq_true]
    rcases hyp with h1 | h2
    · exact Or.inl (by simpa using leadsWith_map f n (c :: rest) h1)
    · exact Or.inr (ih h2)

/-- `find?` skips a block of elements where the predicate is false. -/
theorem find?_append_of_none {α : Type} (p : α → Bool) (pre rest : List α)
    (h : ∀ a ∈ pre, p a = false) :
    List.find? p (pre ++ rest) = List.find? p rest := by
  induction pre with
  | nil => rfl
  | cons a pre2 ih =>
    rw [List.cons_append, List.find?_cons_of_neg _ (by simp [h a (by simp)])]
    exact ih (fun b hb => h b (by simp [hb]))

/-- A nonempty string has positive length. -/
theorem strLength_pos (s : String) (h : s ≠ "") : 0 < s.length := by
  cases s with
  | mk data =>
    cases data with
    | nil => exact absurd rfl h
    | cons c cs => simp [String.length]

/-- The model-fallback loop fails when every candidate fails. -/
theorem tryModels_none_of_allfail (gw : String → List Msg → Option String)
    (ms : List String) :
    ∀ msgs : List Msg, (∀ m msgs2, m ∈ ms → gw m msgs2 = none) →
      tryModels gw msgs ms = none := by
  induction ms with
  | nil => intro msgs h; rfl
  | cons m rest ih =>
    intro msgs h
    simp only [tryModels, h m msgs (by simp)]
    exact ih msgs (fun x msgs2 hx => h x msgs2 (by simp [hx]))

/-- Reading back the key just written through `updAssoc`. -/
theorem lookupAssoc_updAssoc {V : Type} (k : String) (f : Option V → V)
    (l : List (String × V)) :
    lookupAssoc k (updAssoc k f l) = some (f (lookupAssoc k l)) := by
  induction l with
  | nil => simp [lookupAssoc, updAssoc]
  | cons p rest ih =>
    obtain ⟨k1, v⟩ := p
    by_cases h : k1 = k
    · subst h; simp [lookupAssoc, updAssoc]
    · simp [lookupAssoc, updAssoc, h, ih]

/-- The staleness loop is `find?` composed with the first projection. -/
theorem firstStale_eq_find? (l : List (String × LearnEntry)) (now : ℤ) :
    firstStale l now =
      (l.find? (fun p => decide (3600 < now - p.2.ultimo_uso))).map Prod.fst := by
  induction l with
  | nil => rfl
  | cons p rest ih =>
    unfold firstStale
    by_cases hc : 3600 < now - p.2.ultimo_uso
    · rw [if_pos hc, List.find?_cons_of_pos _ (by simpa using hc)]
      rfl
    · rw [if_neg hc, List.find?_cons_of_neg _ (by simpa using hc), ih]

/-- Membership through a stable descending insertion. -/
theorem mem_insertDesc (x y : String × LearnEntry)
    (l : List (String × LearnEntry)) :
    y ∈ insertDesc x l ↔ y = x ∨ y ∈ l := by
  induction l with
  | nil => simp [insertDesc]
  | cons z rest ih =>
    unfold insertDesc
    by_cases h : avgEff x.2 < avgEff z.2
    · rw [if_pos h]
      simp only [List.mem_cons, ih]
      tauto
    · rw [if_neg h]
      simp only [List.mem_cons]

/-- `sortDesc` permutes its input (membership view). -/
theorem mem_sortDesc (y : String × LearnEntry) (l : List (String × LearnEntry)) :
    y ∈ sortDesc l ↔ y ∈ l := by
  induction l with
  | nil => simp [sortDesc]
  | cons z rest ih => simp [sortDesc, mem_insertDesc, ih]

/-- A hit of the staleness loop is a stale member of the list. -/
theorem firstStale_some (l : List (String × LearnEntry)) (now : ℤ) (r : String)
    (h : firstStale l now = some r) :
    ∃ e, (r, e) ∈ l ∧ 3600 < now - e.ultimo_uso := by
  induction l with
  | nil => simp [firstStale] at h
  | cons p rest ih =>
    unfold firstStale at h
    by_cases hc : 3600 < now - p.2.ultimo_uso
    · rw [if_pos hc] at h
      obtain rfl : p.1 = r := Option.some.inj h
      exact ⟨p.2, List.mem_cons_self p rest, hc⟩
    · rw [if_neg hc] at h
      obtain ⟨e, hm, hs⟩ := ih h
      exact ⟨e, List.mem_cons_of_mem _ hm, hs⟩

/-- C1 counterexample: `add_message` never truncates. After 21 appends to a
fresh session (`max_historial = 20`) the history holds all 21 messages, so
`len(history) <= max_history` fails, refuting the claimed invariant. -/
theorem C1_no_truncation_cex :
    (appendUserN (newSession "s") 21).max_historial = 20 ∧
    (appendUserN (newSession "s") 21).history.length = 21 ∧
    ¬ ((appendUserN (newSession "s") 21).history.length ≤
        (appendUserN (newSession "s") 21).max_historial) := by decide

/-- C1 (amended): `add_message` appends the new message as last entry,
keeping all previous entries in original relative order, and increments
`contador_interacciones`; the history itself is unbounded. Only
`get_conversation_context` is limited to the most recent `max_historial`
entries. -/
theorem C1_append_behavior (s : Session) (role content : String)
    (cs : Option String) :
    (addMessage s role content cs).history =
      s.history ++ [⟨role, content, cs⟩] ∧
    (addMessage s role content cs).contador_interacciones =
      s.contador_interacciones + 1 ∧
    (0 < s.max_historial →
      getConversationContext s =
        s.history.drop (s.history.length - s.max_historial) ∧
      (getConversationContext s).length =
        min s.history.length s.max_historial) := by
  refine ⟨rfl, rfl, fun hpos => ?_⟩
  have hne : s.max_historial ≠ 0 := Nat.pos_iff_ne_zero.mp hpos
  refine ⟨by simp [getConversationContext, hne], ?_⟩
  simp only [getConversationContext, hne, if_false, List.length_drop]
  omega

/-- C1 witness for the amended statement, at a concrete fresh session. -/
theorem C1_append_behavior_wit :
    getConversationContext (newSession "w") =
      (newSession "w").history.drop
        ((newSession "w").history.length - (newSession "w").max_historial) :=
  ((C1_append_behavior (newSession "w") "user" "hola" none).2.2 (by decide)).1

/-- C3: `detectar_lenguaje` lower-cases the message, walks the fixed table in
declared order, returns the first language with a matching keyword and
`"General"` when none matches; a message containing both `"def "` and
`"console.log"` yields the earlier table entry, Python. -/
theorem C3_detect_first_match :
    (∀ msg, (∀ p ∈ lenguajesKeywords, langMatches msg p = false) →
      detectarLenguaje msg = "General") ∧
    (∀ msg pre l kws post, lenguajesKeywords = pre ++ (l, kws) :: post →
      (∀ p ∈ pre, langMatches msg p = false) →
      langMatches msg (l, kws) = true →
      detectarLenguaje msg = l) ∧
    (∀ msg, containsStr "def " msg = true →
      containsStr "console.log" msg = true →
      detectarLenguaje msg = "Python") := by
  have key : ∀ msg pre l kws post, lenguajesKeywords = pre ++ (l, kws) :: post →
      (∀ p ∈ pre, langMatches msg p = false) →
      langMatches msg (l, kws) = true →
      detectarLenguaje msg = l := by
    intro msg pre l kws post htab hpre hmatch
    unfold detectarLenguaje
    rw [htab, find?_append_of_none _ pre _ hpre,
      List.find?_cons_of_pos _ hmatch]
  refine ⟨?_, key, ?_⟩
  · intro msg hall
    unfold detectarLenguaje
    rw [List.find?_eq_none.mpr (fun p hp => by simp [hall p hp])]
  · intro msg hdef hlog
    have hlow : containsSub ("def ".data.map Char.toLower)
        (msg.data.map Char.toLower) = true :=
      containsSub_map Char.toLower _ _ hdef
    have hdefl : containsStr (lowerStr "def ") (lowerStr msg) = true := by
      have hd : ("def ".data.map Char.toLower) = "def ".data := by decide
      simpa [containsStr, lowerStr, hd] using hlow
    have hmatch : langMatches msg ("Python",
        ["python", "def ", "import ", "print(", "numpy", "pandas",
         "__main__", "if __name__"]) = true := by
      unfold langMatches
      exact List.any_eq_true.mpr ⟨"def ", by simp, hdefl⟩
    exact key msg [] "Python" _ lenguajesKeywords.tail rfl (by simp) hmatch

/-- C3 witness: a concrete message with both keywords detects Python. -/
theorem C3_detect_first_match_wit :
    detectarLenguaje "def suma(x): pass y console.log(x)" = "Python" :=
  C3_detect_first_match.2.2 "def suma(x): pass y console.log(x)"
    (by decide) (by decide)

/-- C4 counterexample: an empty fenced block wins even though its (trimmed)
result is empty, so the "first rule producing a non-empty result wins"
reading fails: for the non-empty message ```` ```\n``` ```` the extractor
returns `""` although the inline rule would produce the non-empty `"\n"`
and the verbatim fallback would produce the non-empty message itself. -/
theorem C4_empty_fence_cex :
    extraerCodigoUsuario "```\n```" = "" ∧ ("```\n```" : String) ≠ "" ∧
    findInline ("```\n```" : String).data = some ['\n'] := by decide

/-- C4 (amended): extraction is total, and priority is by rule
*applicability*, not by non-emptiness of the produced result: a present
fenced block always wins (its content trimmed, even when empty), otherwise
the first inline span, otherwise the newline-joined keyword-bearing lines,
otherwise the original message verbatim. -/
theorem C4_extract_priority (msg : String) :
    (∀ c, findFenced msg.data = some c →
      extraerCodigoUsuario msg = stripStr (String.mk c)) ∧
    (findFenced msg.data = none → ∀ c, findInline msg.data = some c →
      extraerCodigoUsuario msg = String.mk c) ∧
    (findFenced msg.data = none → findInline msg.data = none →
      (keywordLines msg = [] → extraerCodigoUsuario msg = msg) ∧
      (keywordLines msg ≠ [] →
        extraerCodigoUsuario msg = String.mk (joinNl (keywordLines msg)))) := by
  refine ⟨?_, ?_, ?_⟩
  · intro c hc
    simp [extraerCodigoUsuario, hc]
  · intro h0 c hc
    simp [extraerCodigoUsuario, h0, hc]
  · intro h0 h1
    exact ⟨fun hk => by simp [extraerCodigoUsuario, h0, h1, hk],
           fun hk => by simp [extraerCodigoUsuario, h0, h1, hk]⟩

/-- C4 witness for the amended statement: a fenced block's content, trimmed. -/
theorem C4_extract_priority_wit :
    extraerCodigoUsuario "```\nhi\n```" = stripStr "hi\n" :=
  (C4_extract_priority "```\nhi\n```").1 "hi\n".data (by decide)

/-- C5: serialize/deserialize round-trips every session on the serialized
fields, and deserializing a record with every key missing yields the
documented defaults (supplied fresh id, empty history, zero counter,
`max_historial = 20`, no language). -/
theorem C5_session_roundtrip :
    (∀ (s : Session) (freshId : String), fromDict (toDict s) freshId = s) ∧
    (∀ freshId : String,
      fromDict emptyRecord freshId =
        { history := [], session_id := freshId, contador_interacciones := 0,
          max_historial := 20, lenguaje_actual := none }) :=
  ⟨fun s _ => by cases s; rfl, fun _ => rfl⟩

/-- On an all-failing gateway, `/chat` with a non-blank message returns the
exhaustion error and persists exactly the session with the user message
appended and the detected language set. -/
theorem chat_allfail_eq (gw : String → List Msg → Option String) (now : ℤ)
    (s fresh : Session) (store : Store) (rawMessage : String)
    (hgw : ∀ m msgs, m ∈ modelos → gw m msgs = none)
    (hm : stripStr rawMessage ≠ "") :
    chatEndpoint true gw now (some s) fresh store rawMessage =
      (errResult "No se pudo conectar con ningún modelo AI",
       some { addMessage s "user" (stripStr rawMessage) none with
              lenguaje_actual :=
                some (detectarLenguaje (stripStr rawMessage)) },
       store) := by
  simp only [chatEndpoint, if_neg hm, Option.getD_some, analyzeWithAI,
    Bool.not_true, Bool.false_eq_true, if_false,
    tryModels_none_of_allfail gw modelos _ (fun m msgs2 hmem => hgw m msgs2 hmem)]

/-- C2: when the gateway is configured but every model candidate fails, the
chat operation returns a failure payload, the stripped user message has been
appended to the history before the gateway call, and no assistant message is
appended. -/
theorem C2_all_models_fail (gw : String → List Msg → Option String) (now : ℤ)
    (s fresh : Session) (store : Store) (rawMessage : String)
    (hgw : ∀ m msgs, m ∈ modelos → gw m msgs = none)
    (hm : stripStr rawMessage ≠ "") :
    (chatEndpoint true gw now (some s) fresh store rawMessage).1.success =
      false ∧
    (chatEndpoint true gw now (some s) fresh store rawMessage).1.error =
      some "No se pudo conectar con ningún modelo AI" ∧
    ∀ s1, (chatEndpoint true gw now (some s) fresh store rawMessage).2.1 =
        some s1 →
      s1.history = s.history ++ [⟨"user", stripStr rawMessage, none⟩] ∧
      (⟨"user", stripStr rawMessage, none⟩ : Msg) ∈ s1.history ∧
      countRole "assistant" s1.history = countRole "assistant" s.history := by
  have he := chat_allfail_eq gw now s fresh store rawMessage hgw hm
  refine ⟨by rw [he]; rfl, by rw [he]; rfl, ?_⟩
  intro s1 h1
  rw [he] at h1
  have hs1 := Option.some.inj h1
  subst hs1
  refine ⟨by simp [addMessage], by simp [addMessage], ?_⟩
  simp only [addMessage, countRole, List.countP_append]
  have : List.countP (fun m => m.role == "assistant")
      [(⟨"user", stripStr rawMessage, none⟩ : Msg)] = 0 := by
    simp [List.countP, List.countP.go]
  omega

/-- C2 witness at a concrete all-failing gateway and message. -/
theorem C2_all_models_fail_wit :
    (chatEndpoint true (fun _ _ => none) 0 (some (newSession "a"))
      (newSession "b") [] "hola").1.success = false :=
  (C2_all_models_fail (fun _ _ => none) 0 (newSession "a") (newSession "b")
    [] "hola" (fun _ _ _ => rfl) (by decide)).1

/-- C6 counterexample: the language `" "` is a non-empty string, yet
`evaluar_respuesta` rejects it (its `strip()` is empty) and records nothing,
so the claim's "for every non-empty language ... creates the entry and
increments use_count" fails at language `" "`. -/
theorem C6_blank_language_cex :
    (" " : String) ≠ "" ∧ stripStr " " = "" ∧
    evaluarRespuesta [] " " "u" "x" 5 0 = [] ∧
    lookupStore (evaluarRespuesta [] " " "u" "x" 5 0) " " "x" = none := by
  refine ⟨by decide, by decide, ?_, ?_⟩ <;>
    simp [evaluarRespuesta, lookupStore, lookupAssoc, show stripStr " " = "" by decide]

/-- C6 (amended): for every language and response text that are non-blank
(non-empty after stripping whitespace) and every engagement value, `record`
clamps the engagement to `[1,10]` (`0 ↦ 1`, `50 ↦ 10`), creates the
`(language, response_text)` entry with zero effectiveness and zero uses when
absent, then adds the clamped engagement to `efectividad_total` and
increments `veces_usada` by exactly one. -/
theorem C6_record_updates (store : Store)
    (lenguaje respuesta_usuario respuesta_bot : String)
    (engagement : ℚ) (now : ℤ)
    (hl : stripStr lenguaje ≠ "") (hb : stripStr respuesta_bot ≠ "") :
    lookupStore
        (evaluarRespuesta store lenguaje respuesta_usuario respuesta_bot
          engagement now) lenguaje respuesta_bot =
      some ⟨((lookupStore store lenguaje respuesta_bot).map
               LearnEntry.efectividad_total).getD 0 + clampEff engagement,
            ((lookupStore store lenguaje respuesta_bot).map
               LearnEntry.veces_usada).getD 0 + 1,
            now⟩ ∧
    1 ≤ clampEff engagement ∧ clampEff engagement ≤ 10 ∧
    clampEff 0 = 1 ∧ clampEff 50 = 10 := by
  refine ⟨?_, le_min (by norm_num) (le_max_left 1 engagement),
    min_le_left _ _, ?_, ?_⟩
  · unfold evaluarRespuesta
    rw [if_neg hl, if_neg hb]
    simp only [lookupStore, lookupAssoc_updAssoc]
    cases h2 : lookupAssoc lenguaje store with
    | none => simp [h2, lookupAssoc, Option.getD]
    | some inner =>
      cases h3 : lookupAssoc respuesta_bot inner with
      | none => simp [h2, h3, Option.getD]
      | some en => simp [h2, h3, Option.getD]
  · unfold clampEff
    rw [max_eq_left (by norm_num : (0:ℚ) ≤ 1)]
    exact min_eq_right (by norm_num)
  · unfold clampEff
    rw [max_eq_right (by norm_num : (1:ℚ) ≤ 50)]
    exact min_eq_left (by norm_num)

/-- C6 witness for the amended statement, recording into an empty store with
engagement 0. -/
theorem C6_record_updates_wit :
    lookupStore (evaluarRespuesta [] "Python" "u" "resp" 0 7)
        "Python" "resp" =
      some ⟨((lookupStore [] "Python" "resp").map
               LearnEntry.efectividad_total).getD 0 + clampEff 0,
            ((lookupStore [] "Python" "resp").map
               LearnEntry.veces_usada).getD 0 + 1, 7⟩ :=
  (C6_record_updates [] "Python" "u" "resp" 0 7 (by decide) (by decide)).1

set_option maxRecDepth 100000 in
/-- C7: at a message whose extracted code has more than 10 characters the
formatter emits the analysis block, but it closes the code fence with only
two backticks (the f-string of app.py line 205 ends with `` \n`` ``), so the
extracted code is *not* inside a complete ```-fenced block tagged with the
lower-cased language as the claim states; the raw model reply does appear
verbatim in the specialized-response block. -/
theorem C7_fence_bug_eval :
    extraerCodigoUsuario "```python\nx = 1111111111\n```" = "x = 1111111111" ∧
    10 < ("x = 1111111111" : String).length ∧
    containsStr "```python\nx = 1111111111\n```"
      (generarRespuestaEstructurada "```python\nx = 1111111111\n```" "ok"
        "Python") = false ∧
    containsStr "```python\nx = 1111111111\n``**"
      (generarRespuestaEstructurada "```python\nx = 1111111111\n```" "ok"
        "Python") = true ∧
    containsStr "**🚀 RESPUESTA ESPECIALIZADA**\nok\n\n"
      (generarRespuestaEstructurada "```python\nx = 1111111111\n```" "ok"
        "Python") = true := by decide

/-- C8: `obtener_mejor_respuesta` returns absent when the language has no
entries; otherwise it sorts the language's entries descending by average
effectiveness, takes the top 3 and returns the first one last used more than
an hour before `now` (absent when none of the top 3 qualifies); any returned
response is a stale member of the language's entries. -/
theorem C8_best_response (store : Store) (lenguaje contexto : String)
    (now : ℤ) :
    ((∀ entries, lookupAssoc lenguaje store = some entries → entries = []) →
      obtenerMejorRespuesta store lenguaje contexto now = none) ∧
    (∀ entries, lookupAssoc lenguaje store = some entries → entries ≠ [] →
      obtenerMejorRespuesta store lenguaje contexto now =
        (((sortDesc entries).take 3).find?
          (fun p => decide (3600 < now - p.2.ultimo_uso))).map Prod.fst) ∧
    (∀ r, obtenerMejorRespuesta store lenguaje contexto now = some r →
      ∃ entries e, lookupAssoc lenguaje store = some entries ∧
        (r, e) ∈ entries ∧ 3600 < now - e.ultimo_uso) := by
  refine ⟨?_, ?_, ?_⟩
  · intro hall
    unfold obtenerMejorRespuesta
    cases h : lookupAssoc lenguaje store with
    | none => rfl
    | some entries => simp [hall entries h]
  · intro entries he hne
    have hv : obtenerMejorRespuesta store lenguaje contexto now =
        firstStale ((sortDesc entries).take 3) now := by
      unfold obtenerMejorRespuesta
      rw [he]
      exact if_neg hne
    rw [hv, firstStale_eq_find?]
  · intro r hr
    unfold obtenerMejorRespuesta at hr
    cases h : lookupAssoc lenguaje store with
    | none => rw [h] at hr; exact absurd hr (by simp)
    | some entries =>
      rw [h] at hr
      have hr2 : (if entries = [] then none
          else firstStale ((sortDesc entries).take 3) now) = some r := hr
      by_cases hne : entries = []
      · rw [if_pos hne] at hr2; exact absurd hr2 (by simp)
      · rw [if_neg hne] at hr2
        obtain ⟨e, hmem, hstale⟩ := firstStale_some _ now r hr2
        have hmem2 : (r, e) ∈ sortDesc entries := List.take_subset 3 _ hmem
        exact ⟨entries, e, rfl, (mem_sortDesc _ entries).mp hmem2, hstale⟩

/-- C8 witness at a concrete one-entry store. -/
theorem C8_best_response_wit :
    obtenerMejorRespuesta [("Python", [("r1", ⟨10, 2, 0⟩)])] "Python" "c"
        5000 =
      (((sortDesc [("r1", ⟨10, 2, 0⟩)]).take 3).find?
        (fun p => decide (3600 < 5000 - p.2.ultimo_uso))).map Prod.fst :=
  (C8_best_response [("Python", [("r1", ⟨10, 2, 0⟩)])] "Python" "c"
    5000).2.1 [("r1", ⟨10, 2, 0⟩)] rfl (by simp)

/-- C9: with the gateway configured, `analyze_with_ai` sets the session's
`lenguaje_actual` to the detected language of the message before any model
attempt, so it is updated on every gateway outcome; with the gateway not
configured, the session is returned unchanged. -/
theorem C9_language_frame (gw : String → List Msg → Option String) (now : ℤ)
    (s : Session) (store : Store) (msg : String) :
    (analyzeWithAI false gw now s store msg).2.1 = s ∧
    (analyzeWithAI true gw now s store msg).2.1.lenguaje_actual =
      some (detectarLenguaje msg) := by
  refine ⟨rfl, ?_⟩
  simp only [analyzeWithAI, Bool.not_true, Bool.false_eq_true, if_false]
  split
  · rfl
  · simp [addMessage]

/-- C10: the engagement passed to the learning record on a successful
exchange is `min(10, len(message)/10 + 2)`; for a non-empty message it is
strictly greater than 2 and at most 10, so the lower clamp to 1 inside
`evaluar_respuesta` never fires on this path; moreover `analyze_with_ai`
either leaves the store unchanged or updates it through `evaluar_respuesta`
with exactly this engagement value. -/
theorem C10_engagement_bounds (msg : String) (h : msg ≠ "") :
    2 < engagementOf msg ∧ engagementOf msg ≤ 10 ∧
    clampEff (engagementOf msg) = engagementOf msg ∧
    ∀ gw now s store,
      (analyzeWithAI true gw now s store msg).2.2 = store ∨
      ∃ raw, (analyzeWithAI true gw now s store msg).2.2 =
        evaluarRespuesta store (detectarLenguaje msg) msg
          (generarRespuestaEstructurada msg raw (detectarLenguaje msg))
          (engagementOf msg) now := by
  have hlen : 0 < msg.length := strLength_pos msg h
  have hq : (1:ℚ) ≤ (msg.length : ℚ) := by exact_mod_cast hlen
  have hdiv : (0:ℚ) < (msg.length : ℚ) / 10 :=
    div_pos (lt_of_lt_of_le one_pos hq) (by norm_num)
  have h2 : (2:ℚ) < (msg.length : ℚ) / 10 + 2 := by linarith
  have hE2 : 2 < engagementOf msg := lt_min (by norm_num) h2
  have hE10 : engagementOf msg ≤ 10 := min_le_left _ _
  refine ⟨hE2, hE10, ?_, ?_⟩
  · unfold clampEff
    rw [max_eq_right (le_of_lt (lt_trans one_lt_two hE2)),
      min_eq_right hE10]
  · intro gw now s store
    simp only [analyzeWithAI, Bool.not_true, Bool.false_eq_true, if_false]
    split
    · exact Or.inl rfl
    · exact Or.inr ⟨_, rfl⟩

/-- C10 witness at the one-character message `"a"`. -/
theorem C10_engagement_bounds_wit : 2 < engagementOf "a" :=
  (C10_engagement_bounds "a" (by decide)).1
